import Mathlib

/-!
Verification of the Comparative Metrics Aggregator of the `ai-at-dscubed`
brain-architecture processor.

This file shallowly embeds the analysis pipeline of
`src/brain/postgres/chi-n-nguyen/python/brain_processor.py`
(`BrainArchitectureProcessor.analyze_rag_vs_context_dumping` and
`generate_executive_summary`, including the SQL aggregation query embedded
in the former) and the improvement-factor computation of
`src/brain/postgres/chi-n-nguyen/python/project_2_2_brain_processor.py`
(`Project22BrainProcessor.get_performance_analysis`).

Modelling conventions:
- Database `numeric` values reach Python as `decimal.Decimal`; all values in
  the claims are exactly representable decimals, so numbers are modelled by
  exact rationals (ℚ).
- PostgreSQL `ROUND(x, d)` rounds halves away from zero (`pgRound`);
  Python's `round(x, d)` (both on `float` and on `Decimal` with the default
  context) rounds halves to even (`pyRound`).
- Python division by zero raises; fallible computations return
  `Except PyErr`.
- Python dicts built from literals are modelled as association lists in
  literal order.
-/

/-- Error raised by a Python division with a zero denominator
(`ZeroDivisionError` / `decimal.DivisionByZero`). -/
inductive PyErr where
  | zeroDivision
deriving DecidableEq, Repr

/-- Python `a / b` on exact decimal values: raises on a zero denominator,
otherwise exact division. -/
def pyDiv (a b : ℚ) : Except PyErr ℚ :=
  if b = 0 then .error .zeroDivision else .ok (a / b)

/-- Round a rational to an integer, halves away from zero
(PostgreSQL `ROUND` semantics for `numeric`). -/
def roundHalfAwayZ (q : ℚ) : ℤ :=
  if 0 ≤ q then ⌊q + 1/2⌋ else -⌊-q + 1/2⌋

/-- Round a rational to an integer, halves to even
(Python `round` / IEEE & `Decimal` default semantics). -/
def roundHalfEvenZ (q : ℚ) : ℤ :=
  let f := ⌊q⌋
  let r := q - f
  if r < 1/2 then f
  else if 1/2 < r then f + 1
  else if f % 2 = 0 then f else f + 1

/-- PostgreSQL `ROUND(q, d)`. -/
def pgRound (d : ℕ) (q : ℚ) : ℚ :=
  (roundHalfAwayZ (q * 10 ^ d) : ℚ) / 10 ^ d

/-- Python `round(q, d)`. -/
def pyRound (d : ℕ) (q : ℚ) : ℚ :=
  (roundHalfEvenZ (q * 10 ^ d) : ℚ) / 10 ^ d

/-- One joined row of `bronze.raw_queries` with its
`bronze.raw_performance_metrics` record, as consumed by the aggregation
query in `analyze_rag_vs_context_dumping`. -/
structure MetricRow where
  processing_method : String
  response_time_ms : ℚ
  cost_usd : ℚ
  quality_score : ℚ
  user_satisfaction : ℚ
deriving DecidableEq, Repr

/-- One fetched row of the SQL `GROUP BY processing_method` aggregation. -/
structure AggRow where
  processing_method : String
  query_count : ℕ
  avg_response_time_ms : ℚ
  avg_cost_usd : ℚ
  avg_quality_score : ℚ
  avg_user_satisfaction : ℚ
deriving DecidableEq, Repr

/-- Arithmetic mean of a list of rationals (SQL `AVG`; only ever applied to
nonempty groups, which is all `GROUP BY` can produce). -/
def listMean (l : List ℚ) : ℚ :=
  l.sum / l.length

/-- Distinct values in first-appearance order (the grouping keys produced by
`GROUP BY`, fixed to the deterministic first-appearance order). -/
def dedupFirst : List String → List String
  | [] => []
  | m :: ms => m :: (dedupFirst ms).filter (fun x => x ≠ m)

/-- The aggregate row the SQL query produces for method `m`:
`COUNT(*)`, `ROUND(AVG(response_time_ms), 2)`, `ROUND(AVG(cost_usd), 6)`,
`ROUND(AVG(quality_score), 3)`, `ROUND(AVG(user_satisfaction), 2)`. -/
def mkAggRow (rows : List MetricRow) (m : String) : AggRow :=
  let g := rows.filter (fun r => r.processing_method == m)
  { processing_method := m
    query_count := g.length
    avg_response_time_ms := pgRound 2 (listMean (g.map (fun r => r.response_time_ms)))
    avg_cost_usd := pgRound 6 (listMean (g.map (fun r => r.cost_usd)))
    avg_quality_score := pgRound 3 (listMean (g.map (fun r => r.quality_score)))
    avg_user_satisfaction := pgRound 2 (listMean (g.map (fun r => r.user_satisfaction))) }

/-- The result set of the aggregation query embedded in
`analyze_rag_vs_context_dumping` (lines 104-115): one aggregate row per
distinct `processing_method` present in the input. -/
def sqlAggregate (rows : List MetricRow) : List AggRow :=
  (dedupFirst (rows.map (fun r => r.processing_method))).map (mkAggRow rows)

/-- `next((row for row in performance_data if row['processing_method'] == m), None)`. -/
def findMethod (data : List AggRow) (m : String) : Option AggRow :=
  data.find? (fun a => a.processing_method == m)

/-- A value of the Python result dict: a number or a nested metrics dict. -/
inductive PyValue where
  | num (q : ℚ)
  | agg (a : AggRow)
deriving DecidableEq, Repr

/-- `BrainArchitectureProcessor.analyze_rag_vs_context_dumping`
(brain_processor.py lines 99-143): aggregate per method, pick the RAG and
CONTEXT_DUMP rows, and if both exist build the five-entry result dict,
evaluating the three ratio expressions in literal order; a zero denominator
raises (the `except` clause logs and re-raises). Both groups missing or one
missing yields the empty dict. -/
def analyze_rag_vs_context_dumping (rows : List MetricRow) :
    Except PyErr (List (String × PyValue)) :=
  let performance_data := sqlAggregate rows
  match findMethod performance_data "RAG", findMethod performance_data "CONTEXT_DUMP" with
  | some rag_data, some context_data =>
    match pyDiv context_data.avg_response_time_ms rag_data.avg_response_time_ms with
    | .error e => .error e
    | .ok p =>
      match pyDiv context_data.avg_cost_usd rag_data.avg_cost_usd with
      | .error e => .error e
      | .ok c =>
        match pyDiv (rag_data.avg_quality_score - context_data.avg_quality_score)
            context_data.avg_quality_score with
        | .error e => .error e
        | .ok q =>
          .ok [("rag_metrics", .agg rag_data),
               ("context_dump_metrics", .agg context_data),
               ("performance_improvement_factor", .num (pyRound 1 p)),
               ("cost_reduction_factor", .num (pyRound 1 c)),
               ("quality_improvement_percent", .num (pyRound 2 (q * 100)))]
  | _, _ => .ok []

/-- The entries of a successful analysis (empty for an error). -/
def okEntries (r : Except PyErr (List (String × PyValue))) : List (String × PyValue) :=
  match r with
  | .ok d => d
  | .error _ => []

/-- `analysis.get(key, 0)` for the numeric keys of the result dict. -/
def getNum (d : List (String × PyValue)) (k : String) : ℚ :=
  match List.lookup k d with
  | some (.num q) => q
  | _ => 0

/-- The executive summary record: timestamp, the three numbers quoted in
`key_achievements`, the ROI figure, and the embedded raw analysis. (The
fixed `business_impact` / `strategic_recommendations` string literals carry
no data and are omitted.) -/
structure ExecSummary where
  timestamp : String
  performance_improvement : ℚ
  cost_reduction : ℚ
  quality_improvement : ℚ
  roi_delivered : ℚ
  raw_analysis : List (String × PyValue)
deriving DecidableEq, Repr

/-- The result of `generate_executive_summary`: either the
`{"error": "No data available for analysis"}` dict or the summary. -/
inductive SummaryResult where
  | errorReport (msg : String)
  | report (s : ExecSummary)
deriving DecidableEq, Repr

/-- `BrainArchitectureProcessor.generate_executive_summary`
(brain_processor.py lines 145-188): run the analysis, return the error dict
when it is empty, otherwise read the three factors back out of the analysis
with default 0 and compute `roi_percent = min(p * c * 20, 900)`.
`datetime.now().isoformat()` is modelled by the explicit clock input `now`. -/
def generate_executive_summary (rows : List MetricRow) (now : String) :
    Except PyErr SummaryResult :=
  match analyze_rag_vs_context_dumping rows with
  | .error e => .error e
  | .ok analysis =>
    if analysis = [] then .ok (.errorReport "No data available for analysis")
    else
      let performance_factor := getNum analysis "performance_improvement_factor"
      let cost_factor := getNum analysis "cost_reduction_factor"
      let quality_improvement := getNum analysis "quality_improvement_percent"
      let roi_percent := min (performance_factor * cost_factor * 20) 900
      .ok (.report
        { timestamp := now
          performance_improvement := performance_factor
          cost_reduction := cost_factor
          quality_improvement := quality_improvement
          roi_delivered := roi_percent
          raw_analysis := analysis })

/-- One row of the BEST/WORST `UNION ALL` query of
`Project22BrainProcessor.get_performance_analysis`. -/
structure PerformerRow where
  category : String
  avg_response_time_ms : ℚ
deriving DecidableEq, Repr

/-- `next((p['avg_response_time_ms'] for p in performers if p['category'] == 'BEST'), 1)`. -/
def p22_best_time (performers : List PerformerRow) : ℚ :=
  match performers.find? (fun p => p.category == "BEST") with
  | some p => p.avg_response_time_ms
  | none => 1

/-- `next((p['avg_response_time_ms'] for p in performers if p['category'] == 'WORST'), 1)`. -/
def p22_worst_time (performers : List PerformerRow) : ℚ :=
  match performers.find? (fun p => p.category == "WORST") with
  | some p => p.avg_response_time_ms
  | none => 1

/-- `round(worst_time / best_time, 1) if best_time > 0 else 0`
(project_2_2_brain_processor.py lines 314-316). -/
def p22_improvement_factor (performers : List PerformerRow) : ℚ :=
  let best_time := p22_best_time performers
  let worst_time := p22_worst_time performers
  if 0 < best_time then pyRound 1 (worst_time / best_time) else 0

/-- The three-record end-to-end scenario of the spec (two RAG records with
times 500/700, costs 0.002/0.003, qualities 0.95/0.90; one CONTEXT_DUMP
record with time 3000, cost 0.02, quality 0.80). The scenario fixes no
satisfaction values; they do not enter any claimed figure and are set to 0. -/
def rowsScenario : List MetricRow :=
  [⟨"RAG", 500, 2/1000, 95/100, 0⟩,
   ⟨"RAG", 700, 3/1000, 90/100, 0⟩,
   ⟨"CONTEXT_DUMP", 3000, 2/100, 80/100, 0⟩]

/-- The RAG aggregate row of the scenario. -/
def aggRagScenario : AggRow :=
  ⟨"RAG", 2, 600, 1/400, 37/40, 0⟩

/-- The CONTEXT_DUMP aggregate row of the scenario. -/
def aggCtxScenario : AggRow :=
  ⟨"CONTEXT_DUMP", 1, 3000, 1/50, 4/5, 0⟩

/-- The five-entry analysis dict the code computes on the scenario
(note `quality_improvement_percent` = 15.62 = 781/50). -/
def scenarioAnalysis : List (String × PyValue) :=
  [("rag_metrics", .agg aggRagScenario),
   ("context_dump_metrics", .agg aggCtxScenario),
   ("performance_improvement_factor", .num 5),
   ("cost_reduction_factor", .num 8),
   ("quality_improvement_percent", .num (781/50))]

/-- A member of the deduplicated list is a member of the original list. -/
theorem mem_of_mem_dedupFirst {m : String} : ∀ (l : List String), m ∈ dedupFirst l → m ∈ l
  | x :: xs, h => by
    rw [dedupFirst] at h
    rcases List.mem_cons.mp h with h1 | h1
    · exact h1 ▸ List.mem_cons_self x xs
    · exact List.mem_cons_of_mem x (mem_of_mem_dedupFirst xs (List.mem_filter.mp h1).1)

/-- If no input row carries method `m`, the fetched aggregation result has
no row for `m`. -/
theorem findMethod_sqlAggregate_eq_none (rows : List MetricRow) (m : String)
    (h : ∀ r ∈ rows, r.processing_method ≠ m) :
    findMethod (sqlAggregate rows) m = none := by
  rw [findMethod, List.find?_eq_none]
  intro a ha
  rw [sqlAggregate] at ha
  rcases List.mem_map.mp ha with ⟨m1, hm1, rfl⟩
  have hm2 : m1 ∈ rows.map (fun r => r.processing_method) :=
    mem_of_mem_dedupFirst _ hm1
  rcases List.mem_map.mp hm2 with ⟨r, hr, rfl⟩
  simpa [mkAggRow] using h r hr

/-- When a RAG row and a CONTEXT_DUMP row are both fetched and no guarded
denominator is zero, the analysis succeeds and its five entries are exactly
the code's formulas: every ratio has the CONTEXT_DUMP value in the numerator
and the RAG value in the denominator (resp. RAG minus CONTEXT_DUMP quality
over CONTEXT_DUMP quality) — the code never sorts the two methods by which
one is faster, cheaper, or better. -/
theorem analyze_eq_of_found (rows : List MetricRow) (rag ctx : AggRow)
    (h1 : findMethod (sqlAggregate rows) "RAG" = some rag)
    (h2 : findMethod (sqlAggregate rows) "CONTEXT_DUMP" = some ctx)
    (h3 : rag.avg_response_time_ms ≠ 0)
    (h4 : rag.avg_cost_usd ≠ 0)
    (h5 : ctx.avg_quality_score ≠ 0) :
    analyze_rag_vs_context_dumping rows =
      .ok [("rag_metrics", .agg rag),
           ("context_dump_metrics", .agg ctx),
           ("performance_improvement_factor",
             .num (pyRound 1 (ctx.avg_response_time_ms / rag.avg_response_time_ms))),
           ("cost_reduction_factor",
             .num (pyRound 1 (ctx.avg_cost_usd / rag.avg_cost_usd))),
           ("quality_improvement_percent",
             .num (pyRound 2 ((rag.avg_quality_score - ctx.avg_quality_score) /
               ctx.avg_quality_score * 100)))] := by
  simp only [analyze_rag_vs_context_dumping, h1, h2, pyDiv, if_neg h3, if_neg h4, if_neg h5]

/-- Half-to-even rounding never falls below an integer lower bound of its
argument. -/
theorem le_roundHalfEvenZ_of_le (n : ℤ) (q : ℚ) (h : (n : ℚ) ≤ q) :
    n ≤ roundHalfEvenZ q := by
  have hf : n ≤ ⌊q⌋ := Int.le_floor.mpr h
  rw [roundHalfEvenZ]
  split
  · exact hf
  · split
    · omega
    · split <;> omega

/-- `round(a, 1)` of a quotient that is at least 1 stays at least 1. -/
theorem one_le_pyRound_one (a : ℚ) (h : 1 ≤ a) : 1 ≤ pyRound 1 a := by
  have h10 : ((10 : ℤ) : ℚ) ≤ a * 10 ^ 1 := by push_cast; linarith
  have hz := le_roundHalfEvenZ_of_le 10 _ h10
  rw [pyRound, le_div_iff₀ (by norm_num : (0:ℚ) < 10 ^ 1), one_mul]
  exact_mod_cast hz

theorem sqlAggregate_rowsScenario :
    sqlAggregate rowsScenario = [aggRagScenario, aggCtxScenario] := by
  simp [sqlAggregate, rowsScenario, dedupFirst, mkAggRow, listMean,
    aggRagScenario, aggCtxScenario, List.filter, AggRow.mk.injEq]
  norm_num [pgRound, roundHalfAwayZ]

theorem analyze_rowsScenario :
    analyze_rag_vs_context_dumping rowsScenario = .ok scenarioAnalysis := by
  rw [analyze_rag_vs_context_dumping, sqlAggregate_rowsScenario]
  simp [findMethod, List.find?, aggRagScenario, aggCtxScenario, scenarioAnalysis]
  norm_num [pyDiv, pyRound, roundHalfEvenZ]

theorem findMethod_rag_rowsScenario :
    findMethod (sqlAggregate rowsScenario) "RAG" = some aggRagScenario := by
  rw [sqlAggregate_rowsScenario]
  simp [findMethod, List.find?, aggRagScenario]

theorem findMethod_ctx_rowsScenario :
    findMethod (sqlAggregate rowsScenario) "CONTEXT_DUMP" = some aggCtxScenario := by
  rw [sqlAggregate_rowsScenario]
  simp [findMethod, List.find?, aggRagScenario, aggCtxScenario]

/-- An input on which RAG is the slower method (mean 3000 ms vs 600 ms),
with equal costs and qualities. -/
def rowsRagSlower : List MetricRow :=
  [⟨"RAG", 3000, 1, 1, 1⟩, ⟨"CONTEXT_DUMP", 600, 1, 1, 1⟩]

theorem analyze_rowsRagSlower :
    analyze_rag_vs_context_dumping rowsRagSlower =
      .ok [("rag_metrics", .agg ⟨"RAG", 1, 3000, 1, 1, 1⟩),
           ("context_dump_metrics", .agg ⟨"CONTEXT_DUMP", 1, 600, 1, 1, 1⟩),
           ("performance_improvement_factor", .num (1/5)),
           ("cost_reduction_factor", .num 1),
           ("quality_improvement_percent", .num 0)] := by
  have hagg : sqlAggregate rowsRagSlower =
      [⟨"RAG", 1, 3000, 1, 1, 1⟩, ⟨"CONTEXT_DUMP", 1, 600, 1, 1, 1⟩] := by
    simp [sqlAggregate, rowsRagSlower, dedupFirst, mkAggRow, listMean,
      List.filter, AggRow.mk.injEq]
    norm_num [pgRound, roundHalfAwayZ]
  rw [analyze_rag_vs_context_dumping, hagg]
  simp [findMethod, List.find?]
  norm_num [pyDiv, pyRound, roundHalfEvenZ]

/-- An input on which RAG is the more expensive method (mean cost 0.004 vs
0.002 USD), with RAG faster and equal qualities. -/
def rowsRagPricier : List MetricRow :=
  [⟨"RAG", 100, 4/1000, 1, 1⟩, ⟨"CONTEXT_DUMP", 200, 2/1000, 1, 1⟩]

theorem analyze_rowsRagPricier :
    analyze_rag_vs_context_dumping rowsRagPricier =
      .ok [("rag_metrics", .agg ⟨"RAG", 1, 100, 1/250, 1, 1⟩),
           ("context_dump_metrics", .agg ⟨"CONTEXT_DUMP", 1, 200, 1/500, 1, 1⟩),
           ("performance_improvement_factor", .num 2),
           ("cost_reduction_factor", .num (1/2)),
           ("quality_improvement_percent", .num 0)] := by
  have hagg : sqlAggregate rowsRagPricier =
      [⟨"RAG", 1, 100, 1/250, 1, 1⟩, ⟨"CONTEXT_DUMP", 1, 200, 1/500, 1, 1⟩] := by
    simp [sqlAggregate, rowsRagPricier, dedupFirst, mkAggRow, listMean,
      List.filter, AggRow.mk.injEq]
    norm_num [pgRound, roundHalfAwayZ]
  rw [analyze_rag_vs_context_dumping, hagg]
  simp [findMethod, List.find?]
  norm_num [pyDiv, pyRound, roundHalfEvenZ]

/-- An input on which CONTEXT_DUMP has the better mean quality (0.8 vs 0.5),
with RAG faster and equal costs. -/
def rowsRagLowerQuality : List MetricRow :=
  [⟨"RAG", 100, 1, 1/2, 1⟩, ⟨"CONTEXT_DUMP", 200, 1, 4/5, 1⟩]

theorem analyze_rowsRagLowerQuality :
    analyze_rag_vs_context_dumping rowsRagLowerQuality =
      .ok [("rag_metrics", .agg ⟨"RAG", 1, 100, 1, 1/2, 1⟩),
           ("context_dump_metrics", .agg ⟨"CONTEXT_DUMP", 1, 200, 1, 4/5, 1⟩),
           ("performance_improvement_factor", .num 2),
           ("cost_reduction_factor", .num 1),
           ("quality_improvement_percent", .num (-75/2))] := by
  have hagg : sqlAggregate rowsRagLowerQuality =
      [⟨"RAG", 1, 100, 1, 1/2, 1⟩, ⟨"CONTEXT_DUMP", 1, 200, 1, 4/5, 1⟩] := by
    simp [sqlAggregate, rowsRagLowerQuality, dedupFirst, mkAggRow, listMean,
      List.filter, AggRow.mk.injEq]
    norm_num [pgRound, roundHalfAwayZ]
  rw [analyze_rag_vs_context_dumping, hagg]
  simp [findMethod, List.find?]
  norm_num [pyDiv, pyRound, roundHalfEvenZ]

/-- An input whose RAG group has mean response time zero (the faster
method), so the first ratio has a zero denominator. -/
def rowsZeroRagTime : List MetricRow :=
  [⟨"RAG", 0, 1, 1, 1⟩, ⟨"CONTEXT_DUMP", 5, 1, 1, 1⟩]

/-- The RAG aggregate of `rowsZeroRagTime`. -/
def aggRagZero : AggRow := ⟨"RAG", 1, 0, 1, 1, 1⟩

theorem sqlAggregate_rowsZeroRagTime :
    sqlAggregate rowsZeroRagTime = [aggRagZero, ⟨"CONTEXT_DUMP", 1, 5, 1, 1, 1⟩] := by
  simp [sqlAggregate, rowsZeroRagTime, dedupFirst, mkAggRow, listMean,
    List.filter, AggRow.mk.injEq, aggRagZero]
  norm_num [pgRound, roundHalfAwayZ]

theorem findMethod_rag_rowsZeroRagTime :
    findMethod (sqlAggregate rowsZeroRagTime) "RAG" = some aggRagZero := by
  rw [sqlAggregate_rowsZeroRagTime]
  simp [findMethod, List.find?, aggRagZero]

theorem findMethod_ctx_rowsZeroRagTime :
    findMethod (sqlAggregate rowsZeroRagTime) "CONTEXT_DUMP" =
      some ⟨"CONTEXT_DUMP", 1, 5, 1, 1, 1⟩ := by
  rw [sqlAggregate_rowsZeroRagTime]
  simp [findMethod, List.find?, aggRagZero]

/-- A BEST/WORST performer result set whose best mean response time is 0
(`get_performance_analysis` guards this denominator with `else 0`). -/
def perfZero : List PerformerRow := [⟨"BEST", 0⟩, ⟨"WORST", 5⟩]

theorem p22_best_time_perfZero : p22_best_time perfZero = 0 := by
  simp [p22_best_time, perfZero, List.find?]

/-- The performance factor as the spec's words state it:
slower mean response time over faster mean response time, rounded to 1
decimal. -/
def claimPerformanceImprovementFactor (ragT ctxT : ℚ) : ℚ :=
  pyRound 1 (max ragT ctxT / min ragT ctxT)

/-- The cost factor as the spec's words state it: higher mean cost over
lower mean cost, rounded to 1 decimal. -/
def claimCostReductionFactor (ragC ctxC : ℚ) : ℚ :=
  pyRound 1 (max ragC ctxC / min ragC ctxC)

/-- The quality improvement as the spec's words state it: better (higher)
mean quality minus the baseline (CONTEXT_DUMP) mean quality, over the
baseline, times 100, rounded to 2 decimals. -/
def claimQualityImprovementPercent (ragQ ctxQ : ℚ) : ℚ :=
  pyRound 2 ((max ragQ ctxQ - ctxQ) / ctxQ * 100)

/-- C1 (counterexample): on `rowsRagSlower` both groups exist, both mean
response times are positive (3000 and 600) and differ, yet the computed
`performance_improvement_factor` is 0.2 — not the claimed slower/faster
ratio 5.0, and below 1.0. -/
theorem C1_claim_counterexample :
    List.lookup "performance_improvement_factor"
        (okEntries (analyze_rag_vs_context_dumping rowsRagSlower)) = some (.num (1/5)) ∧
    claimPerformanceImprovementFactor 3000 600 = 5 ∧
    (1/5 : ℚ) ≠ 5 ∧ ¬(1 ≤ (1/5 : ℚ)) := by
  refine ⟨?_, ?_, by norm_num, by norm_num⟩
  · rw [analyze_rowsRagSlower]
    simp [okEntries, List.lookup]
  · rw [claimPerformanceImprovementFactor]
    norm_num [max_def, min_def, pyRound, roundHalfEvenZ]

/-- C1 (amended): whenever both groups are fetched and no guarded
denominator is zero, the computed `performance_improvement_factor` is the
CONTEXT_DUMP mean response time divided by the RAG mean response time,
rounded to 1 decimal (halves to even) — no slower/faster selection takes
place; it is at least 1.0 whenever RAG is at least as fast as CONTEXT_DUMP
with a positive mean (a sufficient condition only: rounding can also
return 1.0 for a quotient slightly below 1). -/
theorem C1_perf_factor_code (rows : List MetricRow) (rag ctx : AggRow)
    (h1 : findMethod (sqlAggregate rows) "RAG" = some rag)
    (h2 : findMethod (sqlAggregate rows) "CONTEXT_DUMP" = some ctx)
    (h3 : rag.avg_response_time_ms ≠ 0)
    (h4 : rag.avg_cost_usd ≠ 0)
    (h5 : ctx.avg_quality_score ≠ 0) :
    List.lookup "performance_improvement_factor"
        (okEntries (analyze_rag_vs_context_dumping rows)) =
      some (.num (pyRound 1 (ctx.avg_response_time_ms / rag.avg_response_time_ms))) ∧
    (0 < rag.avg_response_time_ms → rag.avg_response_time_ms ≤ ctx.avg_response_time_ms →
      1 ≤ pyRound 1 (ctx.avg_response_time_ms / rag.avg_response_time_ms)) := by
  refine ⟨?_, fun hpos hle => one_le_pyRound_one _ ((one_le_div₀ hpos).mpr hle)⟩
  rw [analyze_eq_of_found rows rag ctx h1 h2 h3 h4 h5]
  simp [okEntries, List.lookup]

/-- C1 witness: the amended statement instantiated on the end-to-end
scenario, where RAG (600 ms) is faster than CONTEXT_DUMP (3000 ms). -/
theorem C1_perf_factor_code_witness :
    findMethod (sqlAggregate rowsScenario) "RAG" = some aggRagScenario ∧
    findMethod (sqlAggregate rowsScenario) "CONTEXT_DUMP" = some aggCtxScenario ∧
    List.lookup "performance_improvement_factor"
        (okEntries (analyze_rag_vs_context_dumping rowsScenario)) =
      some (.num (pyRound 1
        (aggCtxScenario.avg_response_time_ms / aggRagScenario.avg_response_time_ms))) ∧
    1 ≤ pyRound 1
        (aggCtxScenario.avg_response_time_ms / aggRagScenario.avg_response_time_ms) :=
  ⟨findMethod_rag_rowsScenario, findMethod_ctx_rowsScenario,
   (C1_perf_factor_code rowsScenario aggRagScenario aggCtxScenario
      findMethod_rag_rowsScenario findMethod_ctx_rowsScenario
      (by norm_num [aggRagScenario]) (by norm_num [aggRagScenario])
      (by norm_num [aggCtxScenario])).1,
   (C1_perf_factor_code rowsScenario aggRagScenario aggCtxScenario
      findMethod_rag_rowsScenario findMethod_ctx_rowsScenario
      (by norm_num [aggRagScenario]) (by norm_num [aggRagScenario])
      (by norm_num [aggCtxScenario])).2
     (by norm_num [aggRagScenario])
     (by norm_num [aggRagScenario, aggCtxScenario])⟩

/-- C6 (counterexample): on `rowsRagPricier` both groups exist with positive
mean costs 0.004 (RAG) and 0.002 (CONTEXT_DUMP), yet the computed
`cost_reduction_factor` is 0.5 — not the claimed higher/lower ratio 2.0, and
below 1.0. -/
theorem C6_claim_counterexample :
    List.lookup "cost_reduction_factor"
        (okEntries (analyze_rag_vs_context_dumping rowsRagPricier)) = some (.num (1/2)) ∧
    claimCostReductionFactor (1/250) (1/500) = 2 ∧
    (1/2 : ℚ) ≠ 2 ∧ ¬(1 ≤ (1/2 : ℚ)) := by
  refine ⟨?_, ?_, by norm_num, by norm_num⟩
  · rw [analyze_rowsRagPricier]
    simp [okEntries, List.lookup]
  · rw [claimCostReductionFactor]
    norm_num [max_def, min_def, pyRound, roundHalfEvenZ]

/-- C6 (amended): whenever both groups are fetched and no guarded
denominator is zero, the computed `cost_reduction_factor` is the
CONTEXT_DUMP mean cost divided by the RAG mean cost, rounded to 1 decimal
(halves to even) — no higher/lower selection takes place; it is at least
1.0 whenever RAG is at most as expensive as CONTEXT_DUMP with a positive
mean cost (a sufficient condition only: rounding can also return 1.0 for a
quotient slightly below 1). -/
theorem C6_cost_factor_code (rows : List MetricRow) (rag ctx : AggRow)
    (h1 : findMethod (sqlAggregate rows) "RAG" = some rag)
    (h2 : findMethod (sqlAggregate rows) "CONTEXT_DUMP" = some ctx)
    (h3 : rag.avg_response_time_ms ≠ 0)
    (h4 : rag.avg_cost_usd ≠ 0)
    (h5 : ctx.avg_quality_score ≠ 0) :
    List.lookup "cost_reduction_factor"
        (okEntries (analyze_rag_vs_context_dumping rows)) =
      some (.num (pyRound 1 (ctx.avg_cost_usd / rag.avg_cost_usd))) ∧
    (0 < rag.avg_cost_usd → rag.avg_cost_usd ≤ ctx.avg_cost_usd →
      1 ≤ pyRound 1 (ctx.avg_cost_usd / rag.avg_cost_usd)) := by
  refine ⟨?_, fun hpos hle => one_le_pyRound_one _ ((one_le_div₀ hpos).mpr hle)⟩
  rw [analyze_eq_of_found rows rag ctx h1 h2 h3 h4 h5]
  simp [okEntries, List.lookup]

/-- C6 witness: the amended statement instantiated on the end-to-end
scenario, where RAG (0.0025 USD) is cheaper than CONTEXT_DUMP (0.02 USD). -/
theorem C6_cost_factor_code_witness :
    findMethod (sqlAggregate rowsScenario) "RAG" = some aggRagScenario ∧
    findMethod (sqlAggregate rowsScenario) "CONTEXT_DUMP" = some aggCtxScenario ∧
    List.lookup "cost_reduction_factor"
        (okEntries (analyze_rag_vs_context_dumping rowsScenario)) =
      some (.num (pyRound 1 (aggCtxScenario.avg_cost_usd / aggRagScenario.avg_cost_usd))) ∧
    1 ≤ pyRound 1 (aggCtxScenario.avg_cost_usd / aggRagScenario.avg_cost_usd) :=
  ⟨findMethod_rag_rowsScenario, findMethod_ctx_rowsScenario,
   (C6_cost_factor_code rowsScenario aggRagScenario aggCtxScenario
      findMethod_rag_rowsScenario findMethod_ctx_rowsScenario
      (by norm_num [aggRagScenario]) (by norm_num [aggRagScenario])
      (by norm_num [aggCtxScenario])).1,
   (C6_cost_factor_code rowsScenario aggRagScenario aggCtxScenario
      findMethod_rag_rowsScenario findMethod_ctx_rowsScenario
      (by norm_num [aggRagScenario]) (by norm_num [aggRagScenario])
      (by norm_num [aggCtxScenario])).2
     (by norm_num [aggRagScenario])
     (by norm_num [aggRagScenario, aggCtxScenario])⟩

/-- C7 (counterexample): on `rowsRagLowerQuality` the CONTEXT_DUMP mean
quality (0.8) is the better one and is the non-zero baseline, so the claimed
formula gives 0, but the code computes (RAG − CONTEXT_DUMP)/CONTEXT_DUMP
unconditionally and reports −37.5. -/
theorem C7_claim_counterexample :
    List.lookup "quality_improvement_percent"
        (okEntries (analyze_rag_vs_context_dumping rowsRagLowerQuality)) =
      some (.num (-75/2)) ∧
    claimQualityImprovementPercent (1/2) (4/5) = 0 ∧
    (-75/2 : ℚ) ≠ 0 := by
  refine ⟨?_, ?_, by norm_num⟩
  · rw [analyze_rowsRagLowerQuality]
    simp [okEntries, List.lookup]
  · rw [claimQualityImprovementPercent]
    norm_num [max_def, pyRound, roundHalfEvenZ]

/-- C7 (amended): whenever both groups are fetched and no guarded
denominator is zero, the computed `quality_improvement_percent` is the RAG
mean quality minus the CONTEXT_DUMP mean quality, divided by the
CONTEXT_DUMP mean quality, times 100, rounded to 2 decimals (halves to
even) — RAG is always the numerator side regardless of which method has
the better mean quality, unlike the spec's better-vs-baseline formula. -/
theorem C7_quality_percent_code (rows : List MetricRow) (rag ctx : AggRow)
    (h1 : findMethod (sqlAggregate rows) "RAG" = some rag)
    (h2 : findMethod (sqlAggregate rows) "CONTEXT_DUMP" = some ctx)
    (h3 : rag.avg_response_time_ms ≠ 0)
    (h4 : rag.avg_cost_usd ≠ 0)
    (h5 : ctx.avg_quality_score ≠ 0) :
    List.lookup "quality_improvement_percent"
        (okEntries (analyze_rag_vs_context_dumping rows)) =
      some (.num (pyRound 2 ((rag.avg_quality_score - ctx.avg_quality_score) /
        ctx.avg_quality_score * 100))) := by
  rw [analyze_eq_of_found rows rag ctx h1 h2 h3 h4 h5]
  simp [okEntries, List.lookup]

/-- C7 witness: the amended statement instantiated on the end-to-end
scenario (qualities 0.925 vs 0.80). -/
theorem C7_quality_percent_code_witness :
    findMethod (sqlAggregate rowsScenario) "RAG" = some aggRagScenario ∧
    findMethod (sqlAggregate rowsScenario) "CONTEXT_DUMP" = some aggCtxScenario ∧
    List.lookup "quality_improvement_percent"
        (okEntries (analyze_rag_vs_context_dumping rowsScenario)) =
      some (.num (pyRound 2 ((aggRagScenario.avg_quality_score -
        aggCtxScenario.avg_quality_score) / aggCtxScenario.avg_quality_score * 100))) :=
  ⟨findMethod_rag_rowsScenario, findMethod_ctx_rowsScenario,
   C7_quality_percent_code rowsScenario aggRagScenario aggCtxScenario
     findMethod_rag_rowsScenario findMethod_ctx_rowsScenario
     (by norm_num [aggRagScenario]) (by norm_num [aggRagScenario])
     (by norm_num [aggCtxScenario])⟩

/-- C2 (counterexample): there is no `UndefinedRatio`/null sentinel anywhere.
On `rowsZeroRagTime` the zero faster-mean denominator makes
`analyze_rag_vs_context_dumping` raise (a propagated `ZeroDivisionError`),
and `get_performance_analysis` with a zero best time reports the ordinary
numeric value 0 as its improvement factor — both of which the claim rules
out. -/
theorem C2_claim_counterexample :
    analyze_rag_vs_context_dumping rowsZeroRagTime = .error .zeroDivision ∧
    p22_improvement_factor perfZero = 0 := by
  constructor
  · simp only [analyze_rag_vs_context_dumping, findMethod_rag_rowsZeroRagTime,
      findMethod_ctx_rowsZeroRagTime, pyDiv]
    norm_num [aggRagZero]
  · simp [p22_improvement_factor, p22_best_time_perfZero]

/-- C2 (amended): when the RAG mean response time is zero,
`analyze_rag_vs_context_dumping` raises `ZeroDivisionError` (re-raised by
its exception handler) rather than reporting a sentinel, and when the best
performer's time is zero, `get_performance_analysis` reports the factor as
the plain number 0 rather than a sentinel. -/
theorem C2_zero_denominator_behavior (rows : List MetricRow) (rag ctx : AggRow)
    (ps : List PerformerRow)
    (h1 : findMethod (sqlAggregate rows) "RAG" = some rag)
    (h2 : findMethod (sqlAggregate rows) "CONTEXT_DUMP" = some ctx)
    (h3 : rag.avg_response_time_ms = 0)
    (h4 : p22_best_time ps = 0) :
    analyze_rag_vs_context_dumping rows = .error .zeroDivision ∧
    p22_improvement_factor ps = 0 := by
  constructor
  · simp only [analyze_rag_vs_context_dumping, h1, h2, pyDiv, if_pos h3]
  · simp [p22_improvement_factor, h4]

/-- C2 witness: the amended statement instantiated on `rowsZeroRagTime` and
`perfZero`. -/
theorem C2_zero_denominator_behavior_witness :
    findMethod (sqlAggregate rowsZeroRagTime) "RAG" = some aggRagZero ∧
    aggRagZero.avg_response_time_ms = 0 ∧
    p22_best_time perfZero = 0 ∧
    (analyze_rag_vs_context_dumping rowsZeroRagTime = .error .zeroDivision ∧
     p22_improvement_factor perfZero = 0) :=
  ⟨findMethod_rag_rowsZeroRagTime, rfl, p22_best_time_perfZero,
   C2_zero_denominator_behavior rowsZeroRagTime aggRagZero
     ⟨"CONTEXT_DUMP", 1, 5, 1, 1, 1⟩ perfZero
     findMethod_rag_rowsZeroRagTime findMethod_ctx_rowsZeroRagTime rfl
     p22_best_time_perfZero⟩

/-- C3 (counterexample): on the spec's three-record scenario the code
computes `quality_improvement_percent` = 15.62 (Python's round-half-to-even
applied to 15.625), not the claimed 15.63. -/
theorem C3_claim_counterexample :
    analyze_rag_vs_context_dumping rowsScenario = .ok scenarioAnalysis ∧
    List.lookup "quality_improvement_percent" scenarioAnalysis =
      some (.num (781/50)) ∧
    (781/50 : ℚ) ≠ 1563/100 := by
  refine ⟨analyze_rowsScenario, by simp [scenarioAnalysis, List.lookup], by norm_num⟩

/-- C3 (amended): the scenario's aggregates and factors are exactly as
claimed — RAG count 2, mean time 600.0, mean cost 0.0025, mean quality
0.925; CONTEXT_DUMP count 1, mean time 3000.0;
performance_improvement_factor 5.0 and cost_reduction_factor 8.0 — except
that quality_improvement_percent is 15.62 (= 781/50), not 15.63. -/
theorem C3_scenario_values :
    analyze_rag_vs_context_dumping rowsScenario = .ok scenarioAnalysis ∧
    aggRagScenario.query_count = 2 ∧
    aggRagScenario.avg_response_time_ms = 600 ∧
    aggRagScenario.avg_cost_usd = 25/10000 ∧
    aggRagScenario.avg_quality_score = 925/1000 ∧
    aggCtxScenario.query_count = 1 ∧
    aggCtxScenario.avg_response_time_ms = 3000 ∧
    List.lookup "performance_improvement_factor" scenarioAnalysis = some (.num 5) ∧
    List.lookup "cost_reduction_factor" scenarioAnalysis = some (.num 8) ∧
    List.lookup "quality_improvement_percent" scenarioAnalysis =
      some (.num (1562/100)) := by
  refine ⟨analyze_rowsScenario, rfl, rfl, by norm_num [aggRagScenario],
    by norm_num [aggRagScenario], rfl, rfl,
    by simp [scenarioAnalysis, List.lookup],
    by simp [scenarioAnalysis, List.lookup],
    by simp [scenarioAnalysis, List.lookup]; norm_num⟩

/-- C4: on the empty input the aggregation yields no groups, the analysis
returns the empty dict without performing any division, and
`generate_executive_summary` reports the "No data available" result instead
of raising. -/
theorem C4_empty_input_no_data (now : String) :
    generate_executive_summary [] now =
      .ok (.errorReport "No data available for analysis") := rfl

/-- C5: if either expected comparison group has no records, the analysis
returns the empty dict normally (no exception, no partial comparison). -/
theorem C5_missing_group_empty (rows : List MetricRow)
    (h : (∀ r ∈ rows, r.processing_method ≠ "RAG") ∨
         (∀ r ∈ rows, r.processing_method ≠ "CONTEXT_DUMP")) :
    analyze_rag_vs_context_dumping rows = .ok [] := by
  rcases h with h | h
  · simp only [analyze_rag_vs_context_dumping,
      findMethod_sqlAggregate_eq_none rows "RAG" h]
  · rcases hR : findMethod (sqlAggregate rows) "RAG" with _ | rag <;>
      simp only [analyze_rag_vs_context_dumping, hR,
        findMethod_sqlAggregate_eq_none rows "CONTEXT_DUMP" h]

/-- C5 witness: an input with only CONTEXT_DUMP records yields the empty
result. -/
theorem C5_missing_group_empty_witness :
    (∀ r ∈ [(⟨"CONTEXT_DUMP", 10, 1, 1, 1⟩ : MetricRow)], r.processing_method ≠ "RAG") ∧
    analyze_rag_vs_context_dumping [⟨"CONTEXT_DUMP", 10, 1, 1, 1⟩] = .ok [] :=
  ⟨by simp, C5_missing_group_empty [⟨"CONTEXT_DUMP", 10, 1, 1, 1⟩] (Or.inl (by simp))⟩

/-- The executive summary the code produces on the scenario at clock reading
`t`: factors 5 and 8, quality 15.62, ROI min(5·8·20, 900) = 800. -/
def scenarioSummaryAt (t : String) : ExecSummary :=
  ⟨t, 5, 8, 781/50, 800, scenarioAnalysis⟩

theorem gen_rowsScenario (t : String) :
    generate_executive_summary rowsScenario t = .ok (.report (scenarioSummaryAt t)) := by
  rw [generate_executive_summary, analyze_rowsScenario]
  simp [scenarioAnalysis, scenarioSummaryAt, getNum, List.lookup]
  norm_num

/-- C8: every successfully generated executive summary reports as ROI the
product of its performance and cost factors times the fixed multiplier 20,
capped at the fixed ceiling 900, and therefore never exceeds 900. -/
theorem C8_roi_capped (rows : List MetricRow) (now : String) (s : ExecSummary)
    (h : generate_executive_summary rows now = .ok (.report s)) :
    s.roi_delivered = min (s.performance_improvement * s.cost_reduction * 20) 900 ∧
    s.roi_delivered ≤ 900 := by
  simp only [generate_executive_summary] at h
  split at h
  · exact absurd h (by simp)
  · split at h
    · exact absurd h (by simp)
    · simp only [Except.ok.injEq, SummaryResult.report.injEq] at h
      subst h
      exact ⟨rfl, min_le_right _ _⟩

/-- C8 witness: the ROI law instantiated on the scenario summary
(ROI = min(800, 900) = 800 ≤ 900). -/
theorem C8_roi_capped_witness :
    generate_executive_summary rowsScenario "t" = .ok (.report (scenarioSummaryAt "t")) ∧
    (scenarioSummaryAt "t").roi_delivered =
      min ((scenarioSummaryAt "t").performance_improvement *
        (scenarioSummaryAt "t").cost_reduction * 20) 900 ∧
    (scenarioSummaryAt "t").roi_delivered ≤ 900 :=
  ⟨gen_rowsScenario "t",
   (C8_roi_capped rowsScenario "t" (scenarioSummaryAt "t") (gen_rowsScenario "t")).1,
   (C8_roi_capped rowsScenario "t" (scenarioSummaryAt "t") (gen_rowsScenario "t")).2⟩

/-- The timestamp field of a successful executive summary. -/
def summaryTimestamp : Except PyErr SummaryResult → Option String
  | .ok (.report s) => some s.timestamp
  | .ok (.errorReport _) => none
  | .error _ => none

/-- C9 (counterexample): the executive summary embeds
`datetime.now().isoformat()`, so two invocations over the very same row set
at different clock readings produce different reports — the summary is not a
pure function of the rows alone. -/
theorem C9_claim_counterexample :
    summaryTimestamp (generate_executive_summary rowsScenario "2025-01-01T00:00:00") =
      some "2025-01-01T00:00:00" ∧
    summaryTimestamp (generate_executive_summary rowsScenario "2025-01-01T00:00:01") =
      some "2025-01-01T00:00:01" ∧
    generate_executive_summary rowsScenario "2025-01-01T00:00:00" ≠
      generate_executive_summary rowsScenario "2025-01-01T00:00:01" := by
  refine ⟨by rw [gen_rowsScenario]; rfl, by rw [gen_rowsScenario]; rfl, fun h => ?_⟩
  have h2 := congrArg summaryTimestamp h
  rw [gen_rowsScenario, gen_rowsScenario] at h2
  simp [summaryTimestamp, scenarioSummaryAt] at h2

/-- Inversion principle for a successful executive summary: its raw
analysis is the analysis result, its timestamp is the clock reading, and
each numeric field is computed from the analysis by the code's formulas. -/
theorem gen_summary_ok (rows : List MetricRow) (now : String) (s : ExecSummary)
    (h : generate_executive_summary rows now = .ok (.report s)) :
    analyze_rag_vs_context_dumping rows = .ok s.raw_analysis ∧
    s.timestamp = now ∧
    s.performance_improvement = getNum s.raw_analysis "performance_improvement_factor" ∧
    s.cost_reduction = getNum s.raw_analysis "cost_reduction_factor" ∧
    s.quality_improvement = getNum s.raw_analysis "quality_improvement_percent" ∧
    s.roi_delivered = min (s.performance_improvement * s.cost_reduction * 20) 900 := by
  simp only [generate_executive_summary] at h
  split at h
  next e heq => exact absurd h (by simp)
  next analysis heq =>
    split at h
    · exact absurd h (by simp)
    · simp only [Except.ok.injEq, SummaryResult.report.injEq] at h
      subst h
      exact ⟨heq, rfl, rfl, rfl, rfl, rfl⟩

/-- C9 (amended): apart from the embedded timestamp, the executive summary
is a deterministic function of the rows: two summaries generated from the
same row set agree on every numeric field and on the embedded raw analysis,
and every number in the summary is drawn from the computed analysis (the
three factors by key lookup with default 0, the ROI by the fixed formula) —
none is fabricated. -/
theorem C9_determinism_mod_timestamp (rows : List MetricRow) (t1 t2 : String)
    (s1 s2 : ExecSummary)
    (h1 : generate_executive_summary rows t1 = .ok (.report s1))
    (h2 : generate_executive_summary rows t2 = .ok (.report s2)) :
    s1.performance_improvement = s2.performance_improvement ∧
    s1.cost_reduction = s2.cost_reduction ∧
    s1.quality_improvement = s2.quality_improvement ∧
    s1.roi_delivered = s2.roi_delivered ∧
    s1.raw_analysis = s2.raw_analysis ∧
    s1.raw_analysis = okEntries (analyze_rag_vs_context_dumping rows) ∧
    s1.performance_improvement = getNum s1.raw_analysis "performance_improvement_factor" ∧
    s1.cost_reduction = getNum s1.raw_analysis "cost_reduction_factor" ∧
    s1.quality_improvement = getNum s1.raw_analysis "quality_improvement_percent" ∧
    s1.roi_delivered = min (s1.performance_improvement * s1.cost_reduction * 20) 900 := by
  obtain ⟨hA1, -, hp1, hc1, hq1, hr1⟩ := gen_summary_ok rows t1 s1 h1
  obtain ⟨hA2, -, hp2, hc2, hq2, hr2⟩ := gen_summary_ok rows t2 s2 h2
  have hraw : s1.raw_analysis = s2.raw_analysis := by
    have h3 := hA1.symm.trans hA2
    simpa using h3
  refine ⟨?_, ?_, ?_, ?_, hraw, ?_, hp1, hc1, hq1, hr1⟩
  · rw [hp1, hp2, hraw]
  · rw [hc1, hc2, hraw]
  · rw [hq1, hq2, hraw]
  · rw [hr1, hr2, hp1, hp2, hc1, hc2, hraw]
  · rw [hA1]
    rfl

/-- C9 witness: the amended statement instantiated on the scenario at two
clock readings. -/
theorem C9_determinism_mod_timestamp_witness :
    generate_executive_summary rowsScenario "a" = .ok (.report (scenarioSummaryAt "a")) ∧
    generate_executive_summary rowsScenario "b" = .ok (.report (scenarioSummaryAt "b")) ∧
    ((scenarioSummaryAt "a").performance_improvement =
        (scenarioSummaryAt "b").performance_improvement ∧
     (scenarioSummaryAt "a").cost_reduction = (scenarioSummaryAt "b").cost_reduction ∧
     (scenarioSummaryAt "a").quality_improvement =
        (scenarioSummaryAt "b").quality_improvement ∧
     (scenarioSummaryAt "a").roi_delivered = (scenarioSummaryAt "b").roi_delivered ∧
     (scenarioSummaryAt "a").raw_analysis = (scenarioSummaryAt "b").raw_analysis ∧
     (scenarioSummaryAt "a").raw_analysis =
        okEntries (analyze_rag_vs_context_dumping rowsScenario) ∧
     (scenarioSummaryAt "a").performance_improvement =
        getNum (scenarioSummaryAt "a").raw_analysis "performance_improvement_factor" ∧
     (scenarioSummaryAt "a").cost_reduction =
        getNum (scenarioSummaryAt "a").raw_analysis "cost_reduction_factor" ∧
     (scenarioSummaryAt "a").quality_improvement =
        getNum (scenarioSummaryAt "a").raw_analysis "quality_improvement_percent" ∧
     (scenarioSummaryAt "a").roi_delivered =
        min ((scenarioSummaryAt "a").performance_improvement *
          (scenarioSummaryAt "a").cost_reduction * 20) 900) :=
  ⟨gen_rowsScenario "a", gen_rowsScenario "b",
   C9_determinism_mod_timestamp rowsScenario "a" "b" (scenarioSummaryAt "a")
     (scenarioSummaryAt "b") (gen_rowsScenario "a") (gen_rowsScenario "b")⟩

/-- C10: the analysis result, when it returns at all, is all-or-nothing —
its key list is either empty or exactly the five keys `rag_metrics`,
`context_dump_metrics`, `performance_improvement_factor`,
`cost_reduction_factor`, `quality_improvement_percent`; no partial subset
ever appears. -/
theorem C10_result_shape (rows : List MetricRow) (d : List (String × PyValue))
    (h : analyze_rag_vs_context_dumping rows = .ok d) :
    d.map Prod.fst = [] ∨
    d.map Prod.fst = ["rag_metrics", "context_dump_metrics",
      "performance_improvement_factor", "cost_reduction_factor",
      "quality_improvement_percent"] := by
  simp only [analyze_rag_vs_context_dumping] at h
  split at h
  · split at h
    · exact absurd h (by simp)
    · split at h
      · exact absurd h (by simp)
      · split at h
        · exact absurd h (by simp)
        · simp only [Except.ok.injEq] at h
          subst h
          right
          rfl
  · simp only [Except.ok.injEq] at h
    subst h
    left
    rfl

/-- C10 witness: on the scenario the result carries exactly the five keys. -/
theorem C10_result_shape_witness :
    analyze_rag_vs_context_dumping rowsScenario = .ok scenarioAnalysis ∧
    (scenarioAnalysis.map Prod.fst = [] ∨
     scenarioAnalysis.map Prod.fst = ["rag_metrics", "context_dump_metrics",
       "performance_improvement_factor", "cost_reduction_factor",
       "quality_improvement_percent"]) :=
  ⟨analyze_rowsScenario, C10_result_shape rowsScenario scenarioAnalysis analyze_rowsScenario⟩
